import Mathlib

/-!
Verification of the account authentication / lockout core of
`Authentication_System/apps/users/models.py` (Django model `CustomUser`).

Modelling choices:
* Timestamps (`timezone.now()`, `locked_until`) are integers counting seconds.
  `timedelta(minutes=d)` is `d * 60` seconds.  The implicit global clock of
  the source is passed as an explicit `now` argument.
* `failed_login_attempts` is an `IntegerField`, hence modelled as `Int`.
* Nullable fields are `Option`.
* Each mutating method ends with `self.save(update_fields=[...])`; a mutation
  is modelled as a function returning the new record together with the list
  of field names passed to `save` (and the method's return value, if any).
-/

/-- The `CustomUser` record: the account-state fields of the Django model. -/
structure CustomUser where
  username : String
  email : String
  first_name : String
  last_name : String
  role : Option String
  is_active : Bool
  is_staff : Bool
  is_superuser : Bool
  phone_number : Option String
  is_email_verified : Bool
  is_2fa_enabled : Bool
  failed_login_attempts : Int
  locked_until : Option Int
  last_login_ip : Option String
  deriving Repr, DecidableEq

/-- Python `str.strip()` with no argument: remove whitespace from both ends
of the string. -/
def pyStrip (s : String) : String :=
  ⟨(((s.data.dropWhile Char.isWhitespace).reverse.dropWhile
      Char.isWhitespace).reverse)⟩

/-- `get_full_name`: `f"{self.first_name} {self.last_name}".strip()`. -/
def get_full_name (u : CustomUser) : String :=
  pyStrip (u.first_name ++ " " ++ u.last_name)

/-- `get_short_name`: `self.first_name or self.username`
(Python `or` on strings: the first operand when non-empty, else the second). -/
def get_short_name (u : CustomUser) : String :=
  if u.first_name = "" then u.username else u.first_name

/-- `can_login`:
`self.is_active and (self.locked_until is None or self.locked_until < timezone.now())`. -/
def can_login (u : CustomUser) (now : Int) : Bool :=
  u.is_active && (match u.locked_until with
    | none => true
    | some t => decide (t < now))

/-- `increment_failed_logins`: adds 1 to the counter, saves only
`failed_login_attempts`, and returns the new count. -/
def increment_failed_logins (u : CustomUser) : CustomUser × List String × Int :=
  let u2 := { u with failed_login_attempts := u.failed_login_attempts + 1 }
  (u2, ["failed_login_attempts"], u2.failed_login_attempts)

/-- `reset_failed_logins`: sets the counter to 0 and `locked_until` to `None`,
then saves both fields in one `save` call. -/
def reset_failed_logins (u : CustomUser) : CustomUser × List String :=
  ({ u with failed_login_attempts := 0, locked_until := none },
   ["failed_login_attempts", "locked_until"])

/-- `lock_account(duration_minutes)`:
`self.locked_until = timezone.now() + timedelta(minutes=duration_minutes)`,
then saves only `locked_until`.  The source performs no validation of the
duration. -/
def lock_account (u : CustomUser) (now : Int) (duration_minutes : Int) :
    CustomUser × List String :=
  ({ u with locked_until := some (now + duration_minutes * 60) },
   ["locked_until"])

/-- `is_account_locked`:
`self.locked_until is not None and self.locked_until > timezone.now()`. -/
def is_account_locked (u : CustomUser) (now : Int) : Bool :=
  match u.locked_until with
  | none => false
  | some t => decide (now < t)

/-- Modelled from the spec: `displayName()` is not a method of the source
file; the spec describes it as the full name (trimmed), falling back to
`firstName`, then to `username`, whichever is first non-empty.  The source
realises the chain through `get_full_name` and `get_short_name`, so
`displayName` is their composition. -/
def displayName (u : CustomUser) : String :=
  if get_full_name u = "" then get_short_name u else get_full_name u

/-- `increment_failed_logins` iterated `n` times (keeping only the record). -/
def incrementN : Nat → CustomUser → CustomUser
  | 0, u => u
  | n + 1, u => incrementN n (increment_failed_logins u).1

/-- A concrete account used by the witness theorems. -/
def sampleUser : CustomUser :=
  { username := "jdoe"
    email := "jdoe@example.com"
    first_name := ""
    last_name := ""
    role := none
    is_active := true
    is_staff := false
    is_superuser := false
    phone_number := none
    is_email_verified := false
    is_2fa_enabled := false
    failed_login_attempts := 0
    locked_until := none
    last_login_ip := none }

lemma incrementN_adds (n : Nat) (u : CustomUser) :
    (incrementN n u).failed_login_attempts = u.failed_login_attempts + n := by
  induction n generalizing u with
  | zero => simp [incrementN]
  | succ n ih =>
    rw [incrementN, ih]
    simp [increment_failed_logins]
    omega

/-- C1: `can_login` is true iff the account is active and either has no
`locked_until` or its `locked_until` lies strictly before `now`; in
particular an inactive account can never log in. -/
theorem can_login_spec (u : CustomUser) (now : Int) :
    (can_login u now = true ↔
      u.is_active = true ∧
        (u.locked_until = none ∨ ∃ t, u.locked_until = some t ∧ t < now)) ∧
    (u.is_active = false → can_login u now = false) := by
  constructor
  · cases h : u.locked_until with
    | none => simp [can_login, h]
    | some t => simp [can_login, h]
  · intro ha
    cases h : u.locked_until with
    | none => simp [can_login, h, ha]
    | some t => simp [can_login, h, ha]

theorem can_login_spec_witness :
    CustomUser.is_active { sampleUser with is_active := false } = false ∧
    can_login { sampleUser with is_active := false } 5 = false :=
  ⟨rfl, (can_login_spec { sampleUser with is_active := false } 5).2 rfl⟩

/-- C2 counterexample: `lock_account` with the non-positive duration `-3`
does not fail; it sets `locked_until` (previously `none`) to a time in the
past, so the claim that a non-positive duration fails fast and leaves
`locked_until` unset is false on the code. -/
theorem lock_account_nonpositive_counterexample :
    (lock_account sampleUser 1000 (-3)).1.locked_until = some 820 ∧
    sampleUser.locked_until = none := by
  constructor <;> rfl

/-- C2 amended: `lock_account` performs no validation; for every duration
`d ≤ 0` it returns normally, setting `locked_until = now + d` minutes — a
time not after `now`, so the account does not report as locked. -/
theorem lock_account_nonpositive_spec (u : CustomUser) (now d : Int)
    (hd : d ≤ 0) :
    (lock_account u now d).1.locked_until = some (now + d * 60) ∧
    is_account_locked (lock_account u now d).1 now = false := by
  refine ⟨rfl, ?_⟩
  simp only [lock_account, is_account_locked]
  rw [decide_eq_false_iff_not]
  omega

theorem lock_account_nonpositive_spec_witness :
    (0 : Int) ≤ 0 ∧
    ((lock_account sampleUser 1000 0).1.locked_until = some (1000 + 0 * 60) ∧
     is_account_locked (lock_account sampleUser 1000 0).1 1000 = false) :=
  ⟨le_refl 0, lock_account_nonpositive_spec sampleUser 1000 0 (le_refl 0)⟩

/-- C3: `displayName` returns the trimmed full name when non-empty, else
falls back to `first_name` when non-empty, else to `username`. -/
theorem displayName_spec (u : CustomUser) :
    (get_full_name u ≠ "" → displayName u = get_full_name u) ∧
    (get_full_name u = "" → u.first_name ≠ "" → displayName u = u.first_name) ∧
    (get_full_name u = "" → u.first_name = "" → displayName u = u.username) := by
  refine ⟨fun h => ?_, fun h1 h2 => ?_, fun h1 h2 => ?_⟩
  · simp [displayName, h]
  · simp [displayName, get_short_name, h1, h2]
  · simp [displayName, get_short_name, h1, h2]

theorem displayName_spec_witness :
    get_full_name sampleUser = "" ∧
    sampleUser.first_name = "" ∧
    displayName sampleUser = "jdoe" :=
  ⟨by decide, rfl, (displayName_spec sampleUser).2.2 (by decide) rfl⟩

/-- C4: `reset_failed_logins` leaves `failed_login_attempts = 0` and
`locked_until = none` for every prior state, saving exactly those two
fields in its single `save` call. -/
theorem reset_failed_logins_spec (u : CustomUser) :
    (reset_failed_logins u).1.failed_login_attempts = 0 ∧
    (reset_failed_logins u).1.locked_until = none ∧
    (reset_failed_logins u).1
      = { u with failed_login_attempts := 0, locked_until := none } ∧
    (reset_failed_logins u).2 = ["failed_login_attempts", "locked_until"] :=
  ⟨rfl, rfl, rfl, rfl⟩

/-- C5: after `lock_account d` (with `d > 0`) on an active account at time
`now`, the account is locked and cannot log in, and stays so at every time
strictly inside the window; at every time strictly past `now + d` minutes it
is unlocked and can log in again, with no further call. -/
theorem lock_account_temporal (u : CustomUser) (now d t : Int)
    (hd : 0 < d) (ha : u.is_active = true) :
    (is_account_locked (lock_account u now d).1 now = true ∧
     can_login (lock_account u now d).1 now = false) ∧
    (now < t → t < now + d * 60 →
      is_account_locked (lock_account u now d).1 t = true ∧
      can_login (lock_account u now d).1 t = false) ∧
    (now + d * 60 < t →
      is_account_locked (lock_account u now d).1 t = false ∧
      can_login (lock_account u now d).1 t = true) := by
  refine ⟨⟨?_, ?_⟩, fun h1 h2 => ⟨?_, ?_⟩, fun h => ⟨?_, ?_⟩⟩ <;>
    simp only [lock_account, is_account_locked, can_login, ha, Bool.true_and] <;>
    simp only [decide_eq_true_iff, decide_eq_false_iff_not] <;>
    omega

theorem lock_account_temporal_witness :
    (0 : Int) < 5 ∧ sampleUser.is_active = true ∧
    (is_account_locked (lock_account sampleUser 0 5).1 100 = true ∧
     can_login (lock_account sampleUser 0 5).1 100 = false) :=
  ⟨by decide, rfl,
    (lock_account_temporal sampleUser 0 5 100 (by decide) rfl).2.1
      (by decide) (by decide)⟩

/-- C6: `increment_failed_logins` adds exactly 1 to the counter and returns
the new count; iterating it `n` times from a zero counter yields `n`. -/
theorem increment_failed_logins_spec (u : CustomUser) (n : Nat)
    (h0 : u.failed_login_attempts = 0) :
    (increment_failed_logins u).1.failed_login_attempts
      = u.failed_login_attempts + 1 ∧
    (increment_failed_logins u).2.2 = u.failed_login_attempts + 1 ∧
    (incrementN n u).failed_login_attempts = n := by
  refine ⟨rfl, rfl, ?_⟩
  rw [incrementN_adds, h0]
  omega

theorem increment_failed_logins_spec_witness :
    sampleUser.failed_login_attempts = 0 ∧
    (incrementN 3 sampleUser).failed_login_attempts = 3 :=
  ⟨rfl, (increment_failed_logins_spec sampleUser 3 rfl).2.2⟩

/-- C7: a second `lock_account` call overwrites the first: the final
`locked_until` is `t2 + d2` minutes, independent of the earlier lock. -/
theorem lock_account_overwrites (u : CustomUser) (t1 t2 d1 d2 : Int)
    (h1 : 0 < d1) (h2 : 0 < d2) :
    (lock_account (lock_account u t1 d1).1 t2 d2).1.locked_until
      = some (t2 + d2 * 60) := rfl

theorem lock_account_overwrites_witness :
    (0 : Int) < 5 ∧ (0 : Int) < 7 ∧
    (lock_account (lock_account sampleUser 0 5).1 10 7).1.locked_until
      = some (10 + 7 * 60) :=
  ⟨by decide, by decide,
    lock_account_overwrites sampleUser 0 10 5 7 (by decide) (by decide)⟩

/-- C8: `is_account_locked` is true iff `locked_until` is set and lies
strictly after `now`; it ignores `is_active`, so a deactivated account with
a future `locked_until` still reports locked. -/
theorem is_account_locked_spec (u : CustomUser) (now : Int) :
    (is_account_locked u now = true ↔
      ∃ t, u.locked_until = some t ∧ now < t) ∧
    (∀ b, is_account_locked { u with is_active := b } now
        = is_account_locked u now) ∧
    (∀ t, u.locked_until = some t → now < t →
      is_account_locked { u with is_active := false } now = true) := by
  refine ⟨?_, fun b => rfl, fun t hl hn => ?_⟩
  · cases h : u.locked_until with
    | none => simp [is_account_locked, h]
    | some t => simp [is_account_locked, h]
  · simp [is_account_locked, hl, hn]

theorem is_account_locked_spec_witness :
    CustomUser.locked_until { sampleUser with locked_until := some 50 }
      = some 50 ∧
    (10 : Int) < 50 ∧
    is_account_locked
      { { sampleUser with locked_until := some 50 } with is_active := false }
      10 = true :=
  ⟨rfl, by decide,
    (is_account_locked_spec { sampleUser with locked_until := some 50 } 10).2.2
      50 rfl (by decide)⟩

/-- C9: `increment_failed_logins` changes only `failed_login_attempts`:
the resulting record equals the input with just the counter bumped (so
`locked_until`, `is_active` and every other field are unchanged, and the
lock status is untouched), and only that one field is written back. -/
theorem increment_failed_logins_frame (u : CustomUser) :
    (increment_failed_logins u).1
      = { u with failed_login_attempts := u.failed_login_attempts + 1 } ∧
    (increment_failed_logins u).1.locked_until = u.locked_until ∧
    (increment_failed_logins u).1.is_active = u.is_active ∧
    (∀ now, is_account_locked (increment_failed_logins u).1 now
        = is_account_locked u now) ∧
    (increment_failed_logins u).2.1 = ["failed_login_attempts"] :=
  ⟨rfl, rfl, rfl, fun _ => rfl, rfl⟩

/-- C10: at the exact instant `now = locked_until`, an active account is
neither login-eligible (`can_login` needs `locked_until < now` strictly)
nor locked (`is_account_locked` needs `locked_until > now` strictly). -/
theorem boundary_instant (u : CustomUser) (t : Int)
    (ha : u.is_active = true) (hl : u.locked_until = some t) :
    can_login u t = false ∧ is_account_locked u t = false := by
  simp [can_login, is_account_locked, hl, ha]

theorem boundary_instant_witness :
    CustomUser.is_active { sampleUser with locked_until := some 42 } = true ∧
    CustomUser.locked_until { sampleUser with locked_until := some 42 }
      = some 42 ∧
    (can_login { sampleUser with locked_until := some 42 } 42 = false ∧
     is_account_locked { sampleUser with locked_until := some 42 } 42 = false) :=
  ⟨rfl, rfl, boundary_instant { sampleUser with locked_until := some 42 } 42 rfl rfl⟩
